import Mathlib

set_option maxRecDepth 16384

/-!
Verification of the conversation-orchestration layer of the learning-platform
backend: a shallow embedding of `core/engine/mentor_engine.py` (the
`MentorEngine` orchestrator) and `core/connection.py` (the `Connection` LLM
client adapter), together with theorems settling the frozen claims about the
JSON repair pipeline, the chat operation, the summarization policy and the
adapter's fallback behaviour.

Python dynamics that matter to the claims are modelled explicitly: parsed JSON
values form an inductive type mirroring what `json.loads` can return, dynamic
attribute and type errors are an `Except` error, and the provider is an oracle
function from requests to response text so that outbound calls can be observed.
-/

/-! ## Basic string helpers (Python semantics) -/

/-- Brace characters, kept as named constants. -/
def lbrace : Char := Char.ofNat 123

def rbrace : Char := Char.ofNat 125

def strOfList (cs : List Char) : String := String.mk cs

/-- Whitespace stripped by Python's `str.strip()` (ASCII part). -/
def pyWs (c : Char) : Bool :=
  c == ' ' || c == '\t' || c == '\n' || c == '\r' || c == '\x0B' || c == '\x0C'

/-- Embedding of Python `str.strip()`. -/
def pyStrip (s : String) : String :=
  strOfList (((s.data.dropWhile pyWs).reverse.dropWhile pyWs).reverse)

/-- Does `p` hold of some suffix of the list (including the list itself)? -/
def anyTail (p : List Char → Bool) : List Char → Bool
  | [] => p []
  | c :: cs => p (c :: cs) || anyTail p cs

/-- Python `needle in hay` for strings: substring containment. -/
def strHasSub (needle hay : String) : Bool :=
  anyTail (fun t => needle.data.isPrefixOf t) hay.data

def strStartsWith (s p : String) : Bool := p.data.isPrefixOf s.data

def strEndsWith (s p : String) : Bool := p.data.reverse.isPrefixOf s.data.reverse

def strDropN (s : String) (n : Nat) : String := strOfList (s.data.drop n)

def strDropRightN (s : String) (n : Nat) : String :=
  strOfList (s.data.take (s.data.length - n))

def listIdxOf? (cs : List Char) (c : Char) : Option Nat := cs.findIdx? (· == c)

/-- Index of the last occurrence of `c`, Python `str.rfind`. -/
def lastIdxOf (cs : List Char) (c : Char) : Option Nat :=
  match listIdxOf? cs.reverse c with
  | some k => some (cs.length - 1 - k)
  | none => none

/-- Python dict assignment `d[k] = v`: replace in place or append. -/
def dictUpd {β : Type} (fs : List (String × β)) (k : String) (v : β) :
    List (String × β) :=
  if fs.any (fun p => p.1 == k) then
    fs.map (fun p => if p.1 == k then (k, v) else p)
  else fs ++ [(k, v)]

/-! ## JSON values

The type of values `json.loads` can produce: `null`, booleans, numbers
(represented exactly as mantissa times a power of ten; `NaN` and the infinities
are accepted by Python's parser and get their own constructors), strings,
arrays and objects. -/

inductive Json where
  | null : Json
  | bool (b : Bool) : Json
  | num (m : Int) (e : Int) : Json
  | nan : Json
  | inf (neg : Bool) : Json
  | str (s : String) : Json
  | arr (xs : List Json) : Json
  | obj (fs : List (String × Json)) : Json

/-! ## A JSON parser embedding `json.loads`

Fuel-indexed recursive descent over the character list.  Objects are built with
`dictUpd` so duplicate keys behave like Python dicts (last value wins, first
position kept). -/

def jsonWsChar (c : Char) : Bool := c == ' ' || c == '\t' || c == '\n' || c == '\r'

def skipWs (cs : List Char) : List Char := cs.dropWhile jsonWsChar

def hexVal (c : Char) : Option Nat :=
  if '0' ≤ c ∧ c ≤ '9' then some (c.toNat - 48)
  else if 'a' ≤ c ∧ c ≤ 'f' then some (c.toNat - 87)
  else if 'A' ≤ c ∧ c ≤ 'F' then some (c.toNat - 55)
  else none

/-- Parse the body of a JSON string literal (after the opening quote),
returning the decoded characters and the rest of the input. -/
def parseStringBody : Nat → List Char → Option (List Char × List Char)
  | 0, _ => none
  | fuel + 1, cs =>
    match cs with
    | [] => none
    | c :: rest =>
      if c == '"' then some ([], rest)
      else if c == '\\' then
        match rest with
        | [] => none
        | e :: rest2 =>
          let cont := fun (ch : Char) (r : List Char) =>
            (parseStringBody fuel r).map (fun p => (ch :: p.1, p.2))
          if e == '"' then cont '"' rest2
          else if e == '\\' then cont '\\' rest2
          else if e == '/' then cont '/' rest2
          else if e == 'b' then cont '\x08' rest2
          else if e == 'f' then cont '\x0C' rest2
          else if e == 'n' then cont '\n' rest2
          else if e == 'r' then cont '\r' rest2
          else if e == 't' then cont '\t' rest2
          else if e == 'u' then
            match rest2 with
            | h1 :: h2 :: h3 :: h4 :: rest3 =>
              match hexVal h1, hexVal h2, hexVal h3, hexVal h4 with
              | some a, some b, some c2, some d =>
                cont (Char.ofNat (((a * 16 + b) * 16 + c2) * 16 + d)) rest3
              | _, _, _, _ => none
            | _ => none
          else none
      else if c.toNat < 32 then none
      else (parseStringBody fuel rest).map (fun p => (c :: p.1, p.2))

def natOfDigits (ds : List Char) : Nat :=
  ds.foldl (fun acc c => acc * 10 + (c.toNat - 48)) 0

/-- Parse an optional exponent part (`e`/`E`, optional sign, digits). -/
def parseExp (cs : List Char) : Option (Option Int × List Char) :=
  match cs with
  | [] => some (none, cs)
  | e :: r =>
    if e == 'e' || e == 'E' then
      let sr : Int × List Char :=
        match r with
        | s :: r2 => if s == '+' then (1, r2) else if s == '-' then (-1, r2) else (1, r)
        | [] => (1, r)
      let eds := sr.2.takeWhile Char.isDigit
      if eds = [] then none
      else some (some (sr.1 * (natOfDigits eds : Int)), sr.2.dropWhile Char.isDigit)
    else some (none, cs)

/-- Parse a JSON number (strict grammar: no leading zeros, fraction and
exponent need at least one digit each). -/
def parseNumber (cs : List Char) : Option (Json × List Char) :=
  let sgn : Bool × List Char :=
    match cs with
    | c :: r => if c == '-' then (true, r) else (false, cs)
    | [] => (false, cs)
  match sgn.2 with
  | [] => none
  | d0 :: _ =>
    if !d0.isDigit then none
    else
      let ids := sgn.2.takeWhile Char.isDigit
      let cs2 := sgn.2.dropWhile Char.isDigit
      if 1 < ids.length ∧ ids.head? = some '0' then none
      else
        let fracStep : Option (List Char × List Char) :=
          match cs2 with
          | p :: r =>
            if p == '.' then
              let fds := r.takeWhile Char.isDigit
              if fds = [] then none else some (fds, r.dropWhile Char.isDigit)
            else some ([], cs2)
          | [] => some ([], cs2)
        match fracStep with
        | none => none
        | some (fds, cs3) =>
          match parseExp cs3 with
          | none => none
          | some (expv, cs4) =>
            let mant : Int := (natOfDigits (ids ++ fds) : Int)
            let mant := if sgn.1 then -mant else mant
            some (Json.num mant ((expv.getD 0) - (fds.length : Int)), cs4)

mutual

def parseValue : Nat → List Char → Option (Json × List Char)
  | 0, _ => none
  | fuel + 1, cs0 =>
    let cs := skipWs cs0
    match cs with
    | [] => none
    | c :: rest =>
      if c == 'n' then
        match rest with
        | 'u' :: 'l' :: 'l' :: r => some (Json.null, r)
        | _ => none
      else if c == 't' then
        match rest with
        | 'r' :: 'u' :: 'e' :: r => some (Json.bool true, r)
        | _ => none
      else if c == 'f' then
        match rest with
        | 'a' :: 'l' :: 's' :: 'e' :: r => some (Json.bool false, r)
        | _ => none
      else if c == 'N' then
        match rest with
        | 'a' :: 'N' :: r => some (Json.nan, r)
        | _ => none
      else if c == 'I' then
        match rest with
        | 'n' :: 'f' :: 'i' :: 'n' :: 'i' :: 't' :: 'y' :: r => some (Json.inf false, r)
        | _ => none
      else if c == '-' then
        match rest with
        | 'I' :: 'n' :: 'f' :: 'i' :: 'n' :: 'i' :: 't' :: 'y' :: r => some (Json.inf true, r)
        | _ => parseNumber cs
      else if c == '"' then
        match parseStringBody fuel rest with
        | some (content, r) => some (Json.str (strOfList content), r)
        | none => none
      else if c == '[' then parseArrayTail fuel rest
      else if c == lbrace then parseObjTail fuel rest
      else parseNumber cs

def parseArrayTail : Nat → List Char → Option (Json × List Char)
  | 0, _ => none
  | fuel + 1, cs =>
    let cs1 := skipWs cs
    match cs1 with
    | [] => none
    | c :: r => if c == ']' then some (Json.arr [], r) else parseArrayItems fuel cs1 []

def parseArrayItems : Nat → List Char → List Json → Option (Json × List Char)
  | 0, _, _ => none
  | fuel + 1, cs, acc =>
    match parseValue fuel cs with
    | none => none
    | some (v, r) =>
      match skipWs r with
      | [] => none
      | c :: r2 =>
        if c == ',' then parseArrayItems fuel r2 (acc ++ [v])
        else if c == ']' then some (Json.arr (acc ++ [v]), r2)
        else none

def parseObjTail : Nat → List Char → Option (Json × List Char)
  | 0, _ => none
  | fuel + 1, cs =>
    let cs1 := skipWs cs
    match cs1 with
    | [] => none
    | c :: _ => if c == rbrace then some (Json.obj [], cs1.tail) else parseObjMembers fuel cs1 []

def parseObjMembers : Nat → List Char → List (String × Json) → Option (Json × List Char)
  | 0, _, _ => none
  | fuel + 1, cs, acc =>
    let cs1 := skipWs cs
    match cs1 with
    | [] => none
    | c :: r =>
      if c == '"' then
        match parseStringBody fuel r with
        | none => none
        | some (kcs, r2) =>
          match skipWs r2 with
          | [] => none
          | c2 :: r4 =>
            if c2 == ':' then
              match parseValue fuel r4 with
              | none => none
              | some (v, r5) =>
                let acc2 := dictUpd acc (strOfList kcs) v
                match skipWs r5 with
                | [] => none
                | c3 :: r7 =>
                  if c3 == ',' then parseObjMembers fuel r7 acc2
                  else if c3 == rbrace then some (Json.obj acc2, r7)
                  else none
            else none
      else none

end

/-- Embedding of `json.loads`: parse one value, then require only whitespace to
remain (otherwise Python raises "Extra data"). `none` is a raised
`JSONDecodeError`. -/
def jsonParse (s : String) : Option Json :=
  match parseValue (8 * s.data.length + 16) s.data with
  | some (v, rest) => if skipWs rest = [] then some v else none
  | none => none

/-! ## JSON serialization (`json.dumps`, default options) -/

def hexDigit (n : Nat) : Char :=
  if n < 10 then Char.ofNat (48 + n) else Char.ofNat (87 + n)

def hex4 (n : Nat) : List Char :=
  [hexDigit (n / 4096 % 16), hexDigit (n / 256 % 16), hexDigit (n / 16 % 16), hexDigit (n % 16)]

/-- Escape one character as Python's `json.dumps` does (`ensure_ascii=True`). -/
def escChar (c : Char) : List Char :=
  if c == '"' then ['\\', '"']
  else if c == '\\' then ['\\', '\\']
  else if c == '\n' then ['\\', 'n']
  else if c == '\t' then ['\\', 't']
  else if c == '\r' then ['\\', 'r']
  else if c == '\x08' then ['\\', 'b']
  else if c == '\x0C' then ['\\', 'f']
  else if c.toNat < 32 then '\\' :: 'u' :: hex4 c.toNat
  else if c.toNat < 127 then [c]
  else if c.toNat < 65536 then '\\' :: 'u' :: hex4 c.toNat
  else
    ('\\' :: 'u' :: hex4 (55296 + (c.toNat - 65536) / 1024)) ++
      ('\\' :: 'u' :: hex4 (56320 + (c.toNat - 65536) % 1024))

def dumpsStr (s : String) : String :=
  strOfList ('"' :: s.data.foldr (fun c acc => escChar c ++ acc) ['"'])

mutual

def jsonDumps : Json → String
  | Json.null => "null"
  | Json.bool b => if b then "true" else "false"
  | Json.num m e => if e = 0 then toString m else toString m ++ "e" ++ toString e
  | Json.nan => "NaN"
  | Json.inf neg => if neg then "-Infinity" else "Infinity"
  | Json.str s => dumpsStr s
  | Json.arr xs => "[" ++ dumpsArr xs ++ "]"
  | Json.obj fs => strOfList [lbrace] ++ dumpsFields fs ++ strOfList [rbrace]

def dumpsArr : List Json → String
  | [] => ""
  | [x] => jsonDumps x
  | x :: y :: xs => jsonDumps x ++ ", " ++ dumpsArr (y :: xs)

def dumpsFields : List (String × Json) → String
  | [] => ""
  | [(k, v)] => dumpsStr k ++ ": " ++ jsonDumps v
  | (k, v) :: y :: xs => dumpsStr k ++ ": " ++ jsonDumps v ++ ", " ++ dumpsFields (y :: xs)

end

/-! ## Python dynamic semantics over parsed values -/

/-- Dynamic errors raised by the Python operations the engine performs on
parsed values. -/
inductive PyErr where
  | typeError : PyErr
  | attributeError : PyErr
deriving DecidableEq

/-! Python `repr` of a parsed JSON value (number formatting approximated; the
engine only ever inspects emptiness of these strings). -/

mutual

def pyRepr : Json → String
  | Json.null => "None"
  | Json.bool b => if b then "True" else "False"
  | Json.num m e => if e = 0 then toString m else toString m ++ "e" ++ toString e
  | Json.nan => "nan"
  | Json.inf neg => if neg then "-inf" else "inf"
  | Json.str s => strOfList ('\x27' :: (s.data ++ ['\x27']))
  | Json.arr xs => "[" ++ pyReprArr xs ++ "]"
  | Json.obj fs => strOfList [lbrace] ++ pyReprFields fs ++ strOfList [rbrace]

def pyReprArr : List Json → String
  | [] => ""
  | [x] => pyRepr x
  | x :: y :: xs => pyRepr x ++ ", " ++ pyReprArr (y :: xs)

def pyReprFields : List (String × Json) → String
  | [] => ""
  | [(k, v)] => strOfList ('\x27' :: (k.data ++ ['\x27'])) ++ ": " ++ pyRepr v
  | (k, v) :: y :: xs =>
    strOfList ('\x27' :: (k.data ++ ['\x27'])) ++ ": " ++ pyRepr v ++ ", " ++ pyReprFields (y :: xs)

end

/-- Python `str` of a parsed JSON value. -/
def pyStr (j : Json) : String :=
  match j with
  | Json.str s => s
  | _ => pyRepr j

/-- Python truthiness of a parsed JSON value. -/
def pyTruthy : Json → Bool
  | Json.null => false
  | Json.bool b => b
  | Json.num m _ => m != 0
  | Json.nan => true
  | Json.inf _ => true
  | Json.str s => s != ""
  | Json.arr xs => !xs.isEmpty
  | Json.obj fs => !fs.isEmpty

/-- Python `==` between an element and a string literal. -/
def jsonEqStr (j : Json) (k : String) : Bool :=
  match j with
  | Json.str s => s == k
  | _ => false

/-- Python `k in x`: key membership for dicts, element membership for lists,
substring for strings, `TypeError` otherwise. -/
def pyContains (j : Json) (k : String) : Except PyErr Bool :=
  match j with
  | Json.obj fs => Except.ok (fs.any (fun p => p.1 == k))
  | Json.arr xs => Except.ok (xs.any (fun e => jsonEqStr e k))
  | Json.str s => Except.ok (strHasSub k s)
  | _ => Except.error PyErr.typeError

/-- Python `x.get(k, d)`: `AttributeError` unless `x` is a dict. -/
def pyGet (j : Json) (k : String) (d : Json) : Except PyErr Json :=
  match j with
  | Json.obj fs => Except.ok ((List.lookup k fs).getD d)
  | _ => Except.error PyErr.attributeError

/-- Python `x[k]` with a string key (only ever reached after a successful
containment check on a dict in the engine). -/
def pyGetItem (j : Json) (k : String) : Except PyErr Json :=
  match j with
  | Json.obj fs =>
    match List.lookup k fs with
    | some v => Except.ok v
    | none => Except.error PyErr.typeError
  | _ => Except.error PyErr.typeError

/-- The engine's `_sanitize_text` applied to a parsed value: `(s or "").strip()`.
Falsy values give the empty string; truthy non-strings have no `.strip`. -/
def pySanitize (j : Json) : Except PyErr String :=
  if pyTruthy j = false then Except.ok ""
  else
    match j with
    | Json.str s => Except.ok (pyStrip s)
    | _ => Except.error PyErr.attributeError

/-- Python `for x in j`: list elements, string characters, dict keys;
`TypeError` otherwise. -/
def pyIter (j : Json) : Except PyErr (List Json) :=
  match j with
  | Json.arr xs => Except.ok xs
  | Json.str s => Except.ok (s.data.map (fun c => Json.str (strOfList [c])))
  | Json.obj fs => Except.ok (fs.map (fun p => Json.str p.1))
  | _ => Except.error PyErr.typeError

/-- Python `x[:80]` as used in the engine's logging line: works on strings and
lists, raises `TypeError` otherwise. -/
def pySliceOk (j : Json) : Except PyErr Unit :=
  match j with
  | Json.str _ => Except.ok ()
  | Json.arr _ => Except.ok ()
  | _ => Except.error PyErr.typeError

/-! ## The LLM Client Adapter (`core/connection.py`, class `Connection`) -/

/-- A chat message as passed between the engine and the adapter. -/
structure Msg where
  role : String
  content : String
deriving DecidableEq

/-- Effective generation parameters built by `Connection._generation_config`.
The JSON response schema is abstracted to the mime-type flag; the claims only
concern the clamped numeric parameters. -/
structure GenerationConfig where
  temperature : ℚ
  max_output_tokens : Int
  response_mime_json : Bool
deriving DecidableEq

/-- Embedding of `Connection._generation_config`: clamp the temperature into
`[0, 2]` and the token budget into `[1, 8192]`. -/
def Connection.generationConfig (temperature : ℚ) (max_tokens : Int)
    (json_mode : Bool) : GenerationConfig :=
  { temperature := max 0 (min 2 temperature)
    max_output_tokens := max 1 (min 8192 max_tokens)
    response_mime_json := json_mode }

/-- The literal returned by `_clean_json_response` for blank input. -/
def noRespEnvelope : String := "\x7b\"response\": \"No response generated\"\x7d"

/-- Embedding of `Connection._clean_json_response`: strip, remove code fences,
and isolate the outermost brace span; if no JSON object can be located, wrap
the text in a `response` envelope. -/
def Connection.cleanJsonResponse (text : String) : String :=
  if pyStrip text = "" then noRespEnvelope
  else
    let t1 := pyStrip text
    let t2 := if strStartsWith t1 ("```json") then strDropN t1 7 else t1
    let t3 := if strStartsWith t2 ("```") then strDropN t2 3 else t2
    let t4 := if strEndsWith t3 ("```") then strDropRightN t3 3 else t3
    let t5 := pyStrip t4
    if strStartsWith t5 (strOfList [lbrace]) then t5
    else
      match listIdxOf? t5.data lbrace, lastIdxOf t5.data rbrace with
      | some i, some j =>
        if i < j then strOfList ((t5.data.drop i).take (j + 1 - i))
        else jsonDumps (Json.obj [("response", Json.str t5)])
      | _, _ => jsonDumps (Json.obj [("response", Json.str t5)])

/-- Outcome of the underlying Gemini SDK round trip: either a result whose
`.text` may be `None`, or a raised exception (transport/SDK failure, safety
block, truncation — everything the `except` clause catches). -/
inductive ProviderOutcome where
  | ok (text : Option String) : ProviderOutcome
  | fail : ProviderOutcome

/-- Fallback string returned by the adapter when the provider call raises. -/
def connFallbackText : String := "Sorry, I had trouble generating a response."

/-- JSON-mode apology substituted when the cleaned provider text still fails
to validate as JSON. -/
def connApologyEnvelope : String :=
  jsonDumps (Json.obj [("response",
    Json.str "I apologize, but I\x27m having trouble formatting my response properly. Could you please try again?")])

/-- Embedding of `Connection.generate_chat_completion`.  The network call is
abstracted by `outcome`; everything after it follows the source: take
`result.text or ""`, and in JSON mode on non-empty text clean it and validate,
substituting an apology envelope when validation fails; a raised exception is
converted to a fixed fallback (JSON envelope in JSON mode). -/
def Connection.generateChatCompletion (messages : List Msg) (temperature : ℚ)
    (max_tokens : Int) (json_mode : Bool) (outcome : ProviderOutcome) : String :=
  let _cfg := Connection.generationConfig temperature max_tokens json_mode
  let _hist := messages
  match outcome with
  | ProviderOutcome.fail =>
    if json_mode then jsonDumps (Json.obj [("response", Json.str connFallbackText)])
    else connFallbackText
  | ProviderOutcome.ok t? =>
    let text := t?.getD ""
    if json_mode ∧ text ≠ "" then
      match jsonParse (Connection.cleanJsonResponse text) with
      | some _ => Connection.cleanJsonResponse text
      | none => connApologyEnvelope
    else text

/-! ## The JSON repair pipeline (`MentorEngine._safe_json_parse`) -/

/-- The sentinel error object produced when every repair stage fails. -/
def errObj (t : String) : Json :=
  Json.obj [("error", Json.str "Failed to parse response"), ("raw_response", Json.str t)]

/-- The brace-span fallback: the substring from the first `{` to the last `}`
(inclusive), i.e. what `re.search` with pattern `\{.*\}` and `DOTALL` finds. -/
def braceSpan (t : String) : Option String :=
  match listIdxOf? t.data lbrace, lastIdxOf t.data rbrace with
  | some i, some j => if i < j then some (strOfList ((t.data.drop i).take (j + 1 - i))) else none
  | _, _ => none

/-- Embedding of `MentorEngine._safe_json_parse`, stage by stage: empty input
gives `{}`; a direct parse returns immediately; the "second attempt" re-parses
the same text and unwraps a nested `response` string; the regex stage parses
the outermost brace span; otherwise the sentinel `errObj` is returned. -/
def safeJsonParse (response_text : String) : Json :=
  if pyStrip response_text = "" then Json.obj []
  else
    match jsonParse response_text with
    | some v => v
    | none =>
      match jsonParse response_text with
      | some data =>
        match data with
        | Json.obj fs =>
          if fs.any (fun p => p.1 == "response") then
            match List.lookup ("response") fs with
            | some (Json.str s) =>
              match jsonParse s with
              | some inner => inner
              | none => data
            | _ => data
          else data
        | _ => data
      | none =>
        match braceSpan response_text with
        | some sub =>
          match jsonParse sub with
          | some v => v
          | none => errObj response_text
        | none => errObj response_text

/-! ## The Conversation Orchestrator (`core/engine/mentor_engine.py`)

The engine is parameterized by the loaded prompt templates (whose `.format`
calls become function fields) and by the adapter as an oracle
`conn : LLMRequest → String`; every outbound call is recorded so theorems can
speak about what was sent to the provider. -/

/-- One call to `Connection.generate_chat_completion` as issued by the engine:
the message list plus the generation options (defaults applied at call sites,
as in the Python signature). -/
structure LLMRequest where
  messages : List Msg
  temperature : ℚ
  max_tokens : Int
  json_mode : Bool
deriving DecidableEq

/-- The prompt templates loaded from `prompts.yaml`.  Template strings whose
placeholders are filled by `.format` are modelled as functions of the
substituted values. -/
structure Prompts where
  default_instructions : String
  roles : String → Option String
  roles_default : String
  summarize_conversation : String
  chat_system_prompt : String → String → String → String → String
  chat_user_prompt_wrapper : String → String
  generate_topic_prompts_tmpl : String → String → String → String
  json_output_format : String

def msgToJson (m : Msg) : Json :=
  Json.obj [("role", Json.str m.role), ("content", Json.str m.content)]

/-- The summarization request issued by `_get_conversation_summary`: one
user-role message holding the task prompt plus `json.dumps` of the full
history, at temperature 0.3 with the adapter's default options. -/
def summaryRequest (prompts : Prompts) (chat_history : List Msg) : LLMRequest :=
  { messages := [Msg.mk ("user")
      (prompts.summarize_conversation ++ "\n\n" ++ jsonDumps (Json.arr (chat_history.map msgToJson)))]
    temperature := 3 / 10
    max_tokens := 1024
    json_mode := false }

/-- Embedding of `MentorEngine._get_conversation_summary`: below 10 messages
reuse the cached summary; otherwise request a summary of the full history and
cache the sanitized result when it is non-empty.  Returns the summary, the
updated cache and the provider calls made. -/
def getConversationSummary (prompts : Prompts) (conn : LLMRequest → String)
    (cache : List (String × String)) (chat_title : String) (chat_history : List Msg) :
    String × List (String × String) × List LLMRequest :=
  if chat_history.length < 10 then ((List.lookup chat_title cache).getD "", cache, [])
  else
    let req := summaryRequest prompts chat_history
    let summary := pyStrip (conn req)
    if summary ≠ "" then (summary, dictUpd cache chat_title summary, [req])
    else (summary, cache, [req])

/-- The context lines accumulated by `chat` (each optional line included only
when its value is truthy, in source order). -/
def contextLines (learning_goal : Option String) (skills : List String)
    (difficulty : String) (role : String) (mentor_topics : Option (List String))
    (current_topic : Option String) (completed_topics : Option (List String)) :
    List String :=
  let optStr := fun (o : Option String) => match o with
    | some s => s != ""
    | none => false
  let optList := fun (o : Option (List String)) => match o with
    | some l => !l.isEmpty
    | none => false
  ["Role: " ++ role]
    ++ (if optStr learning_goal then ["Learning Goal: " ++ learning_goal.getD ""] else [])
    ++ (if skills ≠ [] then ["Skills: " ++ String.intercalate (", ") skills] else [])
    ++ ["Difficulty: " ++ difficulty]
    ++ (if optList mentor_topics then
          ["Topics: " ++ String.intercalate (", ") (mentor_topics.getD [])] else [])
    ++ (if optStr current_topic then ["Current Topic: " ++ current_topic.getD ""] else [])
    ++ (if optList completed_topics then
          ["Completed Topics: " ++ String.intercalate (", ") (completed_topics.getD [])] else [])

/-! Extraction of the reply and suggestions from the parsed provider object,
mirroring the body of `MentorEngine.chat` after `_safe_json_parse`. -/

/-- The four canned suggestions substituted when none could be extracted. -/
def canned4 : List String :=
  ["Can you explain more?", "What should I know next?", "Give me an example",
   "What\x27s the next step?"]

/-- The canned apology used when no reply could be extracted and the parse
result carries no `raw_response`. -/
def chatApology : String :=
  "I\x27m having trouble formatting my response. Could you please rephrase your question?"

/-- `_sanitize_text(parsed.get(k, ""))`. -/
def getSan (parsed : Json) (k : String) : Except PyErr String :=
  match pyGet parsed k (Json.str ("")) with
  | Except.error e => Except.error e
  | Except.ok v => pySanitize v

/-- The reply cascade `sanitize(get "response") or sanitize(get "reply") or
sanitize(get "content")` with Python's lazy `or`. -/
def pyOrStr3 (parsed : Json) : Except PyErr String :=
  match getSan parsed ("response") with
  | Except.error e => Except.error e
  | Except.ok a =>
    if a ≠ "" then Except.ok a
    else
      match getSan parsed ("reply") with
      | Except.error e => Except.error e
      | Except.ok b => if b ≠ "" then Except.ok b else getSan parsed ("content")

def getArrDefault (parsed : Json) (k : String) : Except PyErr Json :=
  pyGet parsed k (Json.arr [])

/-- The array cascade `get k1 or get k2 or get k3` (defaults `[]`), with
Python's lazy, truthiness-based `or`. -/
def pyOrField3 (parsed : Json) (k1 k2 k3 : String) : Except PyErr Json :=
  match getArrDefault parsed k1 with
  | Except.error e => Except.error e
  | Except.ok a =>
    if pyTruthy a then Except.ok a
    else
      match getArrDefault parsed k2 with
      | Except.error e => Except.error e
      | Except.ok b => if pyTruthy b then Except.ok b else getArrDefault parsed k3

/-- The list comprehension
`[sanitize(str(s)) for s in raw if str(s).strip()]`. -/
def sanitizeElems (elems : List Json) : List String :=
  (elems.filter (fun e => pyStrip (pyStr e) ≠ "")).map (fun e => pyStrip (pyStr e))

/-- The successful-parse extraction path of `chat` (reached when `"error"` is
not in the parsed value): reply cascade, suggestions cascade, sanitizing
filter and the inner `[:4]` truncation. -/
def extractPair (parsed : Json) : Except PyErr (Json × List String) :=
  match pyOrStr3 parsed with
  | Except.error e => Except.error e
  | Except.ok r =>
    match pyOrField3 parsed ("suggestions") ("follow_up") ("prompts") with
    | Except.error e => Except.error e
    | Except.ok sraw =>
      match pyIter sraw with
      | Except.error e => Except.error e
      | Except.ok elems => Except.ok (Json.str r, (sanitizeElems elems).take 4)

/-- The reply fallback block: keep a truthy reply; otherwise use
`parsed["raw_response"]` when the sentinel keys are present, else the canned
apology. -/
def replyFallback (parsed : Json) (errIn : Bool) (reply1 : Json) : Except PyErr Json :=
  if pyTruthy reply1 then Except.ok reply1
  else if errIn then
    match pyContains parsed ("raw_response") with
    | Except.error e => Except.error e
    | Except.ok rawIn =>
      if rawIn then pyGetItem parsed ("raw_response") else Except.ok (Json.str chatApology)
  else Except.ok (Json.str chatApology)

/-- The full post-parse body of `chat`: membership test for the sentinel key,
extraction, reply and suggestion fallbacks, and the logging line's `reply[:80]`
slice (which raises on non-sliceable replies). -/
def chatExtract (parsed : Json) : Except PyErr (Json × List String) :=
  match pyContains parsed ("error") with
  | Except.error e => Except.error e
  | Except.ok errIn =>
    match (if errIn = false then extractPair parsed
           else Except.ok (Json.str (""), ([] : List String))) with
    | Except.error e => Except.error e
    | Except.ok rs =>
      match replyFallback parsed errIn rs.1 with
      | Except.error e => Except.error e
      | Except.ok reply2 =>
        let sugg2 := if rs.2 = [] then canned4 else rs.2
        match pySliceOk reply2 with
        | Except.error e => Except.error e
        | Except.ok _ => Except.ok (reply2, sugg2)

/-- The value `chat` returns from a parsed provider object: `chatExtract`
followed by the final `suggestions[:4]` truncation at the return statement. -/
def chatCore (parsed : Json) : Except PyErr (Json × List String) :=
  match chatExtract parsed with
  | Except.error e => Except.error e
  | Except.ok rs => Except.ok (rs.1, rs.2.take 4)

/-- Embedding of `MentorEngine.chat`.  Returns the (possibly raising) reply
and suggestions, the summary cache after the call, and the list of provider
calls made, in order. -/
def MentorEngine.chat (prompts : Prompts) (conn : LLMRequest → String)
    (cache : List (String × String)) (chat_history : List Msg) (user_id : String)
    (chat_title : String) (learning_goal : Option String) (skills : List String)
    (difficulty : String) (role : String) (mentor_topics : Option (List String))
    (current_topic : Option String) (completed_topics : Option (List String)) :
    Except PyErr (Json × List String) × List (String × String) × List LLMRequest :=
  let _uid := user_id
  if chat_history = [] then
    (Except.ok (Json.str "Please start the conversation with a message.", []), cache, [])
  else
    let gcs := getConversationSummary prompts conn cache chat_title chat_history
    let system_prompt := prompts.chat_system_prompt
      (String.intercalate "\n"
        (contextLines learning_goal skills difficulty role mentor_topics
          current_topic completed_topics))
      ((prompts.roles role).getD prompts.roles_default)
      prompts.default_instructions
      prompts.json_output_format
    let user_prompt := prompts.chat_user_prompt_wrapper
      (if gcs.1 = "" then "(no prior summary)" else gcs.1)
    let req : LLMRequest :=
      { messages := Msg.mk ("system") system_prompt ::
          (chat_history.drop (chat_history.length - 6) ++ [Msg.mk ("user") user_prompt])
        temperature := 1 / 2
        max_tokens := 1500
        json_mode := true }
    (chatCore (safeJsonParse (conn req)), gcs.2.1, gcs.2.2 ++ [req])

/-! ## `MentorEngine.generate_topic_prompts` -/

/-- The four fallback topic prompts (f-strings over the topic). -/
def topicFallback (topic : String) : List String :=
  ["What are the basics of " ++ topic ++ "?",
   "Give me an example of " ++ topic,
   "How to apply " ++ topic ++ " in practice?",
   "What are common mistakes with " ++ topic ++ "?"]

/-- The post-parse body of `generate_topic_prompts` up to the fallback choice:
a bare list is used as-is, otherwise the `prompts`/`questions`/`suggestions`
cascade, then the sanitizing filter. -/
def topicInner (parsed : Json) : Except PyErr (List String) :=
  match pyContains parsed ("error") with
  | Except.error e => Except.error e
  | Except.ok errIn =>
    if errIn = false then
      match (match parsed with
             | Json.arr _ => Except.ok parsed
             | _ => pyOrField3 parsed ("prompts") ("questions") ("suggestions")) with
      | Except.error e => Except.error e
      | Except.ok raw =>
        match pyIter raw with
        | Except.error e => Except.error e
        | Except.ok elems => Except.ok (sanitizeElems elems)
    else Except.ok []

/-- Fallback substitution and the final `prompts[:4]` truncation. -/
def topicExtract (parsed : Json) (topic : String) : Except PyErr (List String) :=
  match topicInner parsed with
  | Except.error e => Except.error e
  | Except.ok ps => Except.ok ((if ps = [] then topicFallback topic else ps).take 4)

/-- Embedding of `MentorEngine.generate_topic_prompts`: build the prompt from
the template, issue one JSON-mode request at temperature 0.5 and extract up to
four prompt strings. -/
def MentorEngine.generateTopicPrompts (prompts : Prompts) (conn : LLMRequest → String)
    (topic : String) (context_description : String) (role : Option String) :
    Except PyErr (List String) × List LLMRequest :=
  let role1 := match role with
    | some r => if r = "" then "default" else r
    | none => "default"
  let role_prompt := (prompts.roles role1).getD prompts.roles_default
  let content := prompts.generate_topic_prompts_tmpl topic role_prompt context_description
  let req : LLMRequest :=
    { messages := [Msg.mk ("user") content]
      temperature := 1 / 2
      max_tokens := 1024
      json_mode := true }
  (topicExtract (safeJsonParse (conn req)) topic, [req])

/-! ## Spec-side field selectors

Modelled from the spec's words for comparison with the code: "a reply field
(first of `response`, `reply`, `content` that is non-empty) and a suggestions
array (first of `suggestions`, `follow_up`, `prompts`)". -/

/-- The trimmed string stored under `k` (empty for an absent or non-string
field). -/
def sanOf (fs : List (String × Json)) (k : String) : String :=
  match List.lookup k fs with
  | some (Json.str s) => pyStrip s
  | _ => ""

/-- Spec-side reply selector: the first non-empty (after trimming) of the
`response`, `reply`, `content` fields. -/
def specReplyChoice (fs : List (String × Json)) : String :=
  if sanOf fs ("response") ≠ "" then sanOf fs ("response")
  else if sanOf fs ("reply") ≠ "" then sanOf fs ("reply")
  else sanOf fs ("content")

/-- The array stored under `k` (empty for an absent or non-array field). -/
def arrOf (fs : List (String × Json)) (k : String) : List Json :=
  match List.lookup k fs with
  | some (Json.arr xs) => xs
  | _ => []

/-- Spec-side suggestions selector: the first non-empty of the `suggestions`,
`follow_up`, `prompts` fields. -/
def specSuggArr (fs : List (String × Json)) : List Json :=
  if !(arrOf fs ("suggestions")).isEmpty then arrOf fs ("suggestions")
  else if !(arrOf fs ("follow_up")).isEmpty then arrOf fs ("follow_up")
  else arrOf fs ("prompts")

/-- The field under `k` is a string or absent. -/
def isStrField (fs : List (String × Json)) (k : String) : Bool :=
  match List.lookup k fs with
  | none => true
  | some (Json.str _) => true
  | some _ => false

/-- The field under `k` is an array or absent. -/
def isArrField (fs : List (String × Json)) (k : String) : Bool :=
  match List.lookup k fs with
  | none => true
  | some (Json.arr _) => true
  | some _ => false

/-- The reply fields are strings and the suggestion fields arrays, where
present (the shapes for which the dynamic extraction cannot raise). -/
def wellTypedChatFields (fs : List (String × Json)) : Bool :=
  isStrField fs ("response") && isStrField fs ("reply") && isStrField fs ("content") &&
    isArrField fs ("suggestions") && isArrField fs ("follow_up") && isArrField fs ("prompts")

/-! ## Shared helper lemmas -/

lemma pyStrip_empty : pyStrip "" = "" := rfl

lemma pySanitize_str (s : String) : pySanitize (Json.str s) = Except.ok (pyStrip s) := by
  unfold pySanitize pyTruthy
  split_ifs with h
  · have hs : s = "" := by simpa using h
    subst hs; rfl
  · rfl

/-- On a string-or-absent field, `_sanitize_text(parsed.get(k, ""))` computes
the spec-side trimmed value. -/
lemma getSan_obj (fs : List (String × Json)) (k : String)
    (hk : isStrField fs k = true) :
    getSan (Json.obj fs) k = Except.ok (sanOf fs k) := by
  unfold isStrField at hk
  cases hx : List.lookup k fs with
  | none => simp [getSan, pyGet, sanOf, hx, pySanitize, pyTruthy]
  | some v =>
    rw [hx] at hk
    cases v <;> simp_all [getSan, pyGet, sanOf, hx, pySanitize_str]

/-- On an array-or-absent field, `parsed.get(k, [])` computes the spec-side
array. -/
lemma getArrDefault_obj (fs : List (String × Json)) (k : String)
    (hk : isArrField fs k = true) :
    getArrDefault (Json.obj fs) k = Except.ok (Json.arr (arrOf fs k)) := by
  unfold isArrField at hk
  cases hx : List.lookup k fs with
  | none => simp [getArrDefault, pyGet, arrOf, hx]
  | some v =>
    rw [hx] at hk
    cases v <;> simp_all [getArrDefault, pyGet, arrOf, hx]

/-- The code's reply cascade agrees with the spec-side selector on well-typed
objects. -/
lemma pyOrStr3_spec (fs : List (String × Json))
    (h1 : isStrField fs ("response") = true) (h2 : isStrField fs ("reply") = true)
    (h3 : isStrField fs ("content") = true) :
    pyOrStr3 (Json.obj fs) = Except.ok (specReplyChoice fs) := by
  unfold pyOrStr3
  rw [getSan_obj fs ("response") h1, getSan_obj fs ("reply") h2, getSan_obj fs ("content") h3]
  show (if sanOf fs ("response") ≠ "" then Except.ok (sanOf fs ("response"))
        else if sanOf fs ("reply") ≠ "" then Except.ok (sanOf fs ("reply"))
        else Except.ok (sanOf fs ("content"))) = Except.ok (specReplyChoice fs)
  unfold specReplyChoice
  split_ifs <;> rfl

/-- The code's suggestions cascade agrees with the spec-side selector on
well-typed objects. -/
lemma pyOrField3_spec (fs : List (String × Json))
    (h4 : isArrField fs ("suggestions") = true) (h5 : isArrField fs ("follow_up") = true)
    (h6 : isArrField fs ("prompts") = true) :
    pyOrField3 (Json.obj fs) ("suggestions") ("follow_up") ("prompts")
      = Except.ok (Json.arr (specSuggArr fs)) := by
  unfold pyOrField3 specSuggArr
  rw [getArrDefault_obj fs ("suggestions") h4, getArrDefault_obj fs ("follow_up") h5,
    getArrDefault_obj fs ("prompts") h6]
  simp only [pyTruthy]
  split_ifs <;> rfl

lemma chatCore_ok_length {parsed : Json} {r : Json} {s : List String}
    (h : chatCore parsed = Except.ok (r, s)) : s.length ≤ 4 := by
  unfold chatCore at h
  cases hx : chatExtract parsed with
  | error e => rw [hx] at h; exact absurd h (by simp)
  | ok rs =>
    rw [hx] at h
    simp only [Except.ok.injEq, Prod.mk.injEq] at h
    rw [← h.2]
    exact List.length_take_le 4 rs.2

lemma topicExtract_ok_length {parsed : Json} {topic : String} {l : List String}
    (h : topicExtract parsed topic = Except.ok l) : l.length ≤ 4 := by
  unfold topicExtract at h
  cases hx : topicInner parsed with
  | error e => rw [hx] at h; exact absurd h (by simp)
  | ok ps =>
    rw [hx] at h
    simp only [Except.ok.injEq] at h
    rw [← h]
    exact List.length_take_le 4 _

/-! ## Concrete fixtures used by witnesses and counterexamples -/

/-- A concrete prompt-template instance. -/
def promptsC : Prompts :=
  { default_instructions := "DEF"
    roles := fun r => if r = "default" then some ("ROLE") else none
    roles_default := "ROLE"
    summarize_conversation := "SUMTASK"
    chat_system_prompt := fun a b c d => a ++ "|" ++ b ++ "|" ++ c ++ "|" ++ d
    chat_user_prompt_wrapper := fun s => "WRAP(" ++ s ++ ")"
    generate_topic_prompts_tmpl := fun t r c => "T(" ++ t ++ "," ++ r ++ "," ++ c ++ ")"
    json_output_format := "FMT" }

/-- A ten-message history (at the summarization threshold). -/
def hist10 : List Msg := List.replicate 10 (Msg.mk ("user") ("m"))

/-- A twenty-message history, numbered contents. -/
def hist20 : List Msg := (List.range 20).map (fun i => Msg.mk ("user") (toString i))

/-- The double-encoded provider response of claim C1: a JSON object whose
`response` string field itself contains JSON. -/
def c1DoubleEncoded : String :=
  "\x7b\"response\": \"\x7b\\\"status\\\": \\\"ok\\\"\x7d\"\x7d"

/-! ## Claim theorems -/

/-- Claim C1 (code bug): on the double-encoded response
`{"response": "{\"status\": \"ok\"}"}` the repair pipeline returns the outer
object with the inner JSON still unparsed in its `response` string, not the
nested inner object `{"status": "ok"}` the claim (and the code's own
"second attempt" comment) promise: step 1 returns any successful direct parse
immediately, so the nested-`response` branch is dead code. -/
theorem c1_nested_response_dead_code :
    safeJsonParse c1DoubleEncoded
        = Json.obj [("response", Json.str ("\x7b\"status\": \"ok\"\x7d"))] ∧
      ¬ safeJsonParse c1DoubleEncoded = Json.obj [("status", Json.str ("ok"))] := by
  refine ⟨rfl, fun h => ?_⟩
  have h2 : (Except.error PyErr.typeError : Except PyErr Json) = Except.ok (Json.str ("ok")) :=
    congrArg (fun j => pyGetItem j ("status")) h
  exact Except.noConfusion h2

/-- Claim C3: `chat` on the empty history returns exactly the literal
prompt-for-input message with an empty suggestions list, and the list of
provider calls made is empty. -/
theorem c3_empty_history_guard (prompts : Prompts) (conn : LLMRequest → String)
    (cache : List (String × String)) (user_id chat_title : String)
    (learning_goal : Option String) (skills : List String) (difficulty role : String)
    (mentor_topics : Option (List String)) (current_topic : Option String)
    (completed_topics : Option (List String)) :
    MentorEngine.chat prompts conn cache [] user_id chat_title learning_goal skills
        difficulty role mentor_topics current_topic completed_topics
      = (Except.ok (Json.str "Please start the conversation with a message.", []), cache, []) :=
  rfl

/-- Claim C7: when the underlying provider call raises, the adapter's
completion operation returns the fixed fallback string — wrapped in a
`{"response": ...}` JSON envelope when `json_mode` was requested — for every
input, instead of raising. -/
theorem c7_adapter_failure_fallback (messages : List Msg) (temperature : ℚ)
    (max_tokens : Int) (json_mode : Bool) :
    Connection.generateChatCompletion messages temperature max_tokens json_mode
        ProviderOutcome.fail
      = if json_mode
        then "\x7b\"response\": \"Sorry, I had trouble generating a response.\"\x7d"
        else connFallbackText := by
  cases json_mode
  · rfl
  · rfl

/-- Claim C9: the generation parameters are clamped, never rejected: any
temperature outside `[0, 2]` becomes the nearest bound and any token budget
outside `[1, 8192]` becomes the nearest bound; in-range values pass through. -/
theorem c9_generation_config_clamping (temperature : ℚ) (max_tokens : Int)
    (json_mode : Bool) :
    (Connection.generationConfig temperature max_tokens json_mode).temperature
        = (if temperature < 0 then 0 else if 2 < temperature then 2 else temperature) ∧
      (Connection.generationConfig temperature max_tokens json_mode).max_output_tokens
        = (if max_tokens < 1 then 1 else if 8192 < max_tokens then 8192 else max_tokens) := by
  constructor
  · simp only [Connection.generationConfig, max_def, min_def]
    split_ifs <;> linarith
  · simp only [Connection.generationConfig, max_def, min_def]
    split_ifs <;> omega

/-- Claim C10: in JSON mode, whenever the provider yields non-empty text the
adapter's return value parses as JSON (it is either the cleaned provider
output or the substituted apology envelope); when the provider yields empty
text the adapter returns the empty string unchanged, which is not valid
JSON. -/
theorem c10_json_mode_validity (messages : List Msg) (temperature : ℚ)
    (max_tokens : Int) (t? : Option String) :
    ((t?.getD "" ≠ "") →
        (jsonParse (Connection.generateChatCompletion messages temperature max_tokens true
            (ProviderOutcome.ok t?))).isSome = true ∧
          (Connection.generateChatCompletion messages temperature max_tokens true
              (ProviderOutcome.ok t?) = Connection.cleanJsonResponse (t?.getD "") ∨
            Connection.generateChatCompletion messages temperature max_tokens true
              (ProviderOutcome.ok t?) = connApologyEnvelope)) ∧
      ((t?.getD "" = "") →
        Connection.generateChatCompletion messages temperature max_tokens true
            (ProviderOutcome.ok t?) = "" ∧
          jsonParse "" = none) := by
  constructor
  · intro h
    have hcond : True ∧ t?.getD "" ≠ "" := ⟨trivial, h⟩
    simp only [Connection.generateChatCompletion]
    rw [if_pos hcond]
    cases hp : jsonParse (Connection.cleanJsonResponse (t?.getD "")) with
    | none =>
      refine ⟨?_, Or.inr rfl⟩
      show (jsonParse connApologyEnvelope).isSome = true
      decide
    | some v => exact ⟨by rw [hp]; rfl, Or.inl rfl⟩
  · intro h
    have hcond : ¬ (True ∧ t?.getD "" ≠ "") := by
      intro hc; exact hc.2 h
    simp only [Connection.generateChatCompletion]
    rw [if_neg hcond]
    exact ⟨h, rfl⟩

/-- Witness for C10 at concrete inputs: non-empty provider text yields a
JSON-parseable result, empty provider text passes through unchanged. -/
theorem c10_json_mode_validity_witness :
    (jsonParse (Connection.generateChatCompletion [] (1 / 2) 1024 true
        (ProviderOutcome.ok (some ("hello"))))).isSome = true ∧
      Connection.generateChatCompletion [] (1 / 2) 1024 true (ProviderOutcome.ok none) = "" := by
  constructor
  · exact ((c10_json_mode_validity [] (1 / 2) 1024 (some ("hello"))).1 (by decide)).1
  · exact ((c10_json_mode_validity [] (1 / 2) 1024 none).2 rfl).1

/-- Counterexample for claim C2: on the unparseable response `???` the chat
operation does not return the canned apology as the reply — it returns the raw
garbage text itself (taken from the sentinel's `raw_response`), with the four
canned suggestions. -/
theorem c2_garbage_reply_counterexample :
    (MentorEngine.chat promptsC (fun _ => "???") [] [Msg.mk ("user") ("hi")] "u" "t"
        none [] "easy" "default" none none none).1
        = Except.ok (Json.str ("???"), canned4) ∧
      "???" ≠ chatApology := by
  exact ⟨rfl, by decide⟩

/-- Claim C2 as amended: for every provider response text on which every stage
of the repair pipeline fails (the pipeline yields the sentinel error object),
the chat operation does not raise and returns the raw response text as the
reply together with exactly the four canned suggestions; the canned apology is
reserved for parse results without a `raw_response` field. -/
theorem c2_total_parse_failure_amended (prompts : Prompts)
    (cache : List (String × String)) (chat_history : List Msg) (user_id chat_title : String)
    (learning_goal : Option String) (skills : List String) (difficulty role : String)
    (mentor_topics : Option (List String)) (current_topic : Option String)
    (completed_topics : Option (List String)) (text : String)
    (hne : chat_history ≠ []) (hfail : safeJsonParse text = errObj text) :
    (MentorEngine.chat prompts (fun _ => text) cache chat_history user_id chat_title
        learning_goal skills difficulty role mentor_topics current_topic
        completed_topics).1
      = Except.ok (Json.str text, canned4) := by
  unfold MentorEngine.chat
  rw [if_neg hne]
  show chatCore (safeJsonParse text) = Except.ok (Json.str text, canned4)
  rw [hfail]
  rfl

/-- Witness for the amended C2 at a concrete garbage response. -/
theorem c2_total_parse_failure_witness :
    (MentorEngine.chat promptsC (fun _ => "@@@") [] [Msg.mk ("user") ("q")] "u" "t"
        none [] "easy" "default" none none none).1
      = Except.ok (Json.str ("@@@"), canned4) :=
  c2_total_parse_failure_amended promptsC [] [Msg.mk ("user") ("q")] "u" "t"
    none [] "easy" "default" none none none "@@@" (by simp) rfl

/-- Claim C5: whenever `chat` returns (rather than raising), its suggestions
list has at most four entries, and whenever `generate_topic_prompts` returns,
its prompts list has at most four entries — for every provider output. -/
theorem c5_suggestions_at_most_four (prompts : Prompts) (conn : LLMRequest → String)
    (cache : List (String × String)) (chat_history : List Msg) (user_id chat_title : String)
    (learning_goal : Option String) (skills : List String) (difficulty role : String)
    (mentor_topics : Option (List String)) (current_topic : Option String)
    (completed_topics : Option (List String)) :
    (∀ (r : Json) (s : List String),
        (MentorEngine.chat prompts conn cache chat_history user_id chat_title
            learning_goal skills difficulty role mentor_topics current_topic
            completed_topics).1 = Except.ok (r, s) → s.length ≤ 4) ∧
      (∀ (topic context_description : String) (role? : Option String) (l : List String),
        (MentorEngine.generateTopicPrompts prompts conn topic context_description
            role?).1 = Except.ok l → l.length ≤ 4) := by
  constructor
  · intro r s h
    unfold MentorEngine.chat at h
    by_cases hh : chat_history = []
    · rw [if_pos hh] at h
      simp only [Except.ok.injEq, Prod.mk.injEq] at h
      rw [← h.2]
      decide
    · rw [if_neg hh] at h
      exact chatCore_ok_length h
  · intro topic cd role? l h
    exact topicExtract_ok_length h

/-- Witness for C5: a concrete run of both operations returning the canned and
fallback lists, each of length at most four. -/
theorem c5_suggestions_at_most_four_witness :
    (["a", "b", "c", "d"] : List String).length ≤ 4 ∧ (topicFallback ("X")).length ≤ 4 := by
  constructor
  · exact (c5_suggestions_at_most_four promptsC
      (fun _ => "\x7b\"response\": \"hi\", \"suggestions\": [\"a\", \"b\", \"c\", \"d\", \"e\", \"f\"]\x7d")
      [] [Msg.mk ("user") ("q")]
      "u" "t" none [] "easy" "default" none none none).1 (Json.str ("hi"))
      ["a", "b", "c", "d"] rfl
  · exact (c5_suggestions_at_most_four promptsC (fun _ => "!!!") [] [Msg.mk ("user") ("q")]
      "u" "t" none [] "easy" "default" none none none).2 "X" "" none (topicFallback ("X")) rfl

/-- Claim C4: with more than six history messages, the message sequence of the
chat-completion request (the final provider call) is exactly one system-role
message, followed by precisely the last six history messages in their original
order, followed by one appended user-role summary-wrapper message. -/
theorem c4_history_truncation (prompts : Prompts) (conn : LLMRequest → String)
    (cache : List (String × String)) (chat_history : List Msg) (user_id chat_title : String)
    (learning_goal : Option String) (skills : List String) (difficulty role : String)
    (mentor_topics : Option (List String)) (current_topic : Option String)
    (completed_topics : Option (List String)) (h6 : 6 < chat_history.length) :
    (((MentorEngine.chat prompts conn cache chat_history user_id chat_title
          learning_goal skills difficulty role mentor_topics current_topic
          completed_topics).2.2.getLast?).map
        (fun r => (r.messages.head?).map Msg.role) = some (some "system")) ∧
    (((MentorEngine.chat prompts conn cache chat_history user_id chat_title
          learning_goal skills difficulty role mentor_topics current_topic
          completed_topics).2.2.getLast?).map
        (fun r => (r.messages.drop 1).dropLast)
      = some (chat_history.drop (chat_history.length - 6))) ∧
    (((MentorEngine.chat prompts conn cache chat_history user_id chat_title
          learning_goal skills difficulty role mentor_topics current_topic
          completed_topics).2.2.getLast?).map
        (fun r => (r.messages.getLast?).map Msg.role) = some (some "user")) ∧
    (chat_history.drop (chat_history.length - 6)).length = 6 := by
  have hne : chat_history ≠ [] := by
    intro heq
    rw [heq] at h6
    exact absurd h6 (by decide)
  refine ⟨?_, ?_, ?_, ?_⟩
  · unfold MentorEngine.chat
    rw [if_neg hne]
    show ((_ ++ [_]).getLast?).map _ = _
    rw [List.getLast?_concat]
    rfl
  · unfold MentorEngine.chat
    rw [if_neg hne]
    show ((_ ++ [_]).getLast?).map _ = _
    rw [List.getLast?_concat]
    refine congrArg some ?_
    show ((Msg.mk ("system") _ :: (chat_history.drop (chat_history.length - 6)
        ++ [Msg.mk ("user") _])).drop 1).dropLast = _
    rw [List.drop_one, List.tail_cons, List.dropLast_concat]
  · unfold MentorEngine.chat
    rw [if_neg hne]
    show ((_ ++ [_]).getLast?).map _ = _
    rw [List.getLast?_concat]
    refine congrArg some ?_
    show Option.map Msg.role ((Msg.mk ("system") _ :: (chat_history.drop (chat_history.length - 6)
        ++ [Msg.mk ("user") _])).getLast?) = some "user"
    rw [← List.cons_append, List.getLast?_concat]
    rfl
  · rw [List.length_drop]
    omega

/-- Witness for C4 on a concrete twenty-message history. -/
theorem c4_history_truncation_witness :
    ((MentorEngine.chat promptsC (fun _ => "ok") [] hist20 "u" "t"
          none [] "easy" "default" none none none).2.2.getLast?).map
        (fun r => (r.messages.drop 1).dropLast)
      = some (hist20.drop (hist20.length - 6)) ∧
    (hist20.drop (hist20.length - 6)).length = 6 := by
  have h := c4_history_truncation promptsC (fun _ => "ok") [] hist20 "u" "t"
    none [] "easy" "default" none none none (by decide)
  exact ⟨h.2.1, h.2.2.2⟩

/-- Counterexample for claim C6: with a ten-message history and a provider
whose summary response is whitespace, the summarization request is issued but
nothing is cached under the chat title — the claim's unconditional "caches it
keyed by chat title" fails for empty summaries. -/
theorem c6_empty_summary_not_cached_counterexample :
    10 ≤ hist10.length ∧
      ((MentorEngine.chat promptsC (fun _ => " ") [] hist10 "u" "t" none [] "easy"
          "default" none none none).2.2).head? = some (summaryRequest promptsC hist10) ∧
      (MentorEngine.chat promptsC (fun _ => " ") [] hist10 "u" "t" none [] "easy"
          "default" none none none).2.1 = [] := by
  exact ⟨by decide, rfl, rfl⟩

/-- Claim C6 as amended: for every chat call whose history has at least 10
messages, the first provider call is the summarization request over the full
serialized history at temperature 0.3 (not in JSON mode), and the sanitized
summary is cached keyed by chat title exactly when it is non-empty (an
empty/whitespace summary leaves the cache unchanged); for every shorter
history no summarization call is made (the single call is the JSON-mode chat
completion), the cache is unchanged, and the previously cached summary for the
title (empty marker if absent) is what the appended wrapper message carries. -/
theorem c6_summarization_policy_amended (prompts : Prompts) (conn : LLMRequest → String)
    (cache : List (String × String)) (chat_history : List Msg) (user_id chat_title : String)
    (learning_goal : Option String) (skills : List String) (difficulty role : String)
    (mentor_topics : Option (List String)) (current_topic : Option String)
    (completed_topics : Option (List String)) (hne : chat_history ≠ []) :
    (10 ≤ chat_history.length →
      ((MentorEngine.chat prompts conn cache chat_history user_id chat_title
          learning_goal skills difficulty role mentor_topics current_topic
          completed_topics).2.2).head? = some (summaryRequest prompts chat_history) ∧
      (summaryRequest prompts chat_history).temperature = 3 / 10 ∧
      (summaryRequest prompts chat_history).json_mode = false ∧
      (summaryRequest prompts chat_history).messages
        = [Msg.mk ("user") (prompts.summarize_conversation ++ "\n\n"
            ++ jsonDumps (Json.arr (chat_history.map msgToJson)))] ∧
      (MentorEngine.chat prompts conn cache chat_history user_id chat_title
          learning_goal skills difficulty role mentor_topics current_topic
          completed_topics).2.1
        = (if pyStrip (conn (summaryRequest prompts chat_history)) = "" then cache
           else dictUpd cache chat_title (pyStrip (conn (summaryRequest prompts chat_history))))) ∧
    (chat_history.length < 10 →
      ((MentorEngine.chat prompts conn cache chat_history user_id chat_title
          learning_goal skills difficulty role mentor_topics current_topic
          completed_topics).2.2).length = 1 ∧
      ((MentorEngine.chat prompts conn cache chat_history user_id chat_title
          learning_goal skills difficulty role mentor_topics current_topic
          completed_topics).2.2).map LLMRequest.json_mode = [true] ∧
      (MentorEngine.chat prompts conn cache chat_history user_id chat_title
          learning_goal skills difficulty role mentor_topics current_topic
          completed_topics).2.1 = cache ∧
      ((MentorEngine.chat prompts conn cache chat_history user_id chat_title
          learning_goal skills difficulty role mentor_topics current_topic
          completed_topics).2.2).map (fun r => (r.messages.getLast?).map Msg.content)
        = [some (prompts.chat_user_prompt_wrapper
            (if (List.lookup chat_title cache).getD "" = "" then "(no prior summary)"
             else (List.lookup chat_title cache).getD ""))]) := by
  constructor
  · intro h10
    have hlt : ¬ chat_history.length < 10 := by omega
    simp only [MentorEngine.chat, getConversationSummary]
    rw [if_neg hne, if_neg hlt]
    by_cases hs : pyStrip (conn (summaryRequest prompts chat_history)) = ""
    · simp only [if_neg (not_not_intro hs), if_pos hs]
      refine ⟨?_, ?_, ?_, ?_, ?_⟩ <;> first | rfl | trivial
    · simp only [if_pos hs, if_neg hs]
      refine ⟨?_, ?_, ?_, ?_, ?_⟩ <;> first | rfl | trivial
  · intro hlt
    simp only [MentorEngine.chat, getConversationSummary]
    rw [if_neg hne, if_pos hlt]
    refine ⟨rfl, rfl, rfl, ?_⟩
    show [((Msg.mk ("system") _ :: (chat_history.drop (chat_history.length - 6)
        ++ [Msg.mk ("user") _])).getLast?).map Msg.content] = _
    rw [← List.cons_append, List.getLast?_concat]
    rfl

/-- Witness for the amended C6 at concrete inputs, both below and at the
summarization threshold. -/
theorem c6_summarization_policy_witness :
    ((MentorEngine.chat promptsC (fun _ => " S ") [] hist10 "u" "t" none [] "easy"
        "default" none none none).2.2).head? = some (summaryRequest promptsC hist10) ∧
      (MentorEngine.chat promptsC (fun _ => " S ") [] hist10 "u" "t" none [] "easy"
          "default" none none none).2.1
        = (if pyStrip ((fun (_ : LLMRequest) => " S ") (summaryRequest promptsC hist10)) = ""
           then ([] : List (String × String))
           else dictUpd [] "t" (pyStrip ((fun (_ : LLMRequest) => " S ") (summaryRequest promptsC hist10)))) ∧
      ((MentorEngine.chat promptsC (fun _ => "x") [("t", "old")] [Msg.mk ("user") ("q")]
          "u" "t" none [] "easy" "default" none none none).2.2).length = 1 ∧
      (MentorEngine.chat promptsC (fun _ => "x") [("t", "old")] [Msg.mk ("user") ("q")]
          "u" "t" none [] "easy" "default" none none none).2.1 = [("t", "old")] := by
  have h1 := (c6_summarization_policy_amended promptsC (fun _ => " S ") [] hist10 "u" "t"
    none [] "easy" "default" none none none (by decide)).1 (by decide)
  have h2 := (c6_summarization_policy_amended promptsC (fun _ => "x") [("t", "old")]
    [Msg.mk ("user") ("q")] "u" "t" none [] "easy" "default" none none none
    (by simp)).2 (by decide)
  exact ⟨h1.1, h1.2.2.2.2, h2.1, h2.2.2.1⟩

/-- On a well-typed parsed object without an `error` key, whose spec-side
reply choice is non-empty and whose spec-side suggestions filter to a
non-empty list, the chat extraction returns exactly the spec-side selections
(truncated to four). -/
lemma chatCore_obj (fs : List (String × Json))
    (hnoerr : fs.any (fun p => p.1 == "error") = false)
    (w1 : isStrField fs ("response") = true) (w2 : isStrField fs ("reply") = true)
    (w3 : isStrField fs ("content") = true)
    (w4 : isArrField fs ("suggestions") = true) (w5 : isArrField fs ("follow_up") = true)
    (w6 : isArrField fs ("prompts") = true)
    (hr : specReplyChoice fs ≠ "")
    (hs : sanitizeElems (specSuggArr fs) ≠ []) :
    chatCore (Json.obj fs)
      = Except.ok (Json.str (specReplyChoice fs), (sanitizeElems (specSuggArr fs)).take 4) := by
  have hcont : pyContains (Json.obj fs) ("error") = Except.ok false := by
    simp only [pyContains, hnoerr]
  have hep : extractPair (Json.obj fs)
      = Except.ok (Json.str (specReplyChoice fs), (sanitizeElems (specSuggArr fs)).take 4) := by
    unfold extractPair
    rw [pyOrStr3_spec fs w1 w2 w3, pyOrField3_spec fs w4 w5 w6]
    rfl
  have htr : pyTruthy (Json.str (specReplyChoice fs)) = true := by
    simp [pyTruthy, hr]
  have hne4 : ((sanitizeElems (specSuggArr fs)).take 4) ≠ [] := by
    simp [List.take_eq_nil_iff, hs]
  unfold chatCore chatExtract
  rw [hcont]
  simp only []
  rw [if_pos trivial, hep]
  simp only [replyFallback, htr, if_true, pySliceOk, if_neg hne4, List.take_take,
    Nat.min_self]

/-- Counterexample for claim C8: the provider object
`{"error": "x", "response": "hi"}` parses successfully and its first non-empty
reply field is `"hi"`, yet the chat operation returns the canned apology and
canned suggestions, because the presence of an `error` key is mistaken for the
repair pipeline's failure sentinel and field selection is skipped. -/
theorem c8_error_key_counterexample :
    safeJsonParse ("\x7b\"error\": \"x\", \"response\": \"hi\"\x7d")
        = Json.obj [("error", Json.str ("x")), ("response", Json.str ("hi"))] ∧
      specReplyChoice [("error", Json.str ("x")), ("response", Json.str ("hi"))] = "hi" ∧
      (MentorEngine.chat promptsC
          (fun _ => "\x7b\"error\": \"x\", \"response\": \"hi\"\x7d") []
          [Msg.mk ("user") ("q")] "u" "t" none [] "easy" "default" none none none).1
        = Except.ok (Json.str chatApology, canned4) ∧
      chatApology ≠ "hi" := by
  exact ⟨rfl, rfl, rfl, by decide⟩

/-- Claim C8 as amended: for every successfully parsed provider object that
does not contain an `error` key (and whose reply fields are strings and
suggestion fields arrays where present), the chat operation selects the reply
as the first non-empty field among `response`, `reply`, `content` and the
suggestions array as the first non-empty field among `suggestions`,
`follow_up`, `prompts`, in priority order. -/
theorem c8_field_priority_amended (prompts : Prompts)
    (cache : List (String × String)) (chat_history : List Msg) (user_id chat_title : String)
    (learning_goal : Option String) (skills : List String) (difficulty role : String)
    (mentor_topics : Option (List String)) (current_topic : Option String)
    (completed_topics : Option (List String)) (text : String) (fs : List (String × Json))
    (hne : chat_history ≠ [])
    (hparse : safeJsonParse text = Json.obj fs)
    (hnoerr : fs.any (fun p => p.1 == "error") = false)
    (hwt : wellTypedChatFields fs = true)
    (hr : specReplyChoice fs ≠ "")
    (hs : sanitizeElems (specSuggArr fs) ≠ []) :
    (MentorEngine.chat prompts (fun _ => text) cache chat_history user_id chat_title
        learning_goal skills difficulty role mentor_topics current_topic
        completed_topics).1
      = Except.ok (Json.str (specReplyChoice fs),
          (sanitizeElems (specSuggArr fs)).take 4) := by
  unfold MentorEngine.chat
  rw [if_neg hne]
  show chatCore (safeJsonParse text) = _
  rw [hparse]
  simp only [wellTypedChatFields, Bool.and_eq_true] at hwt
  obtain ⟨⟨⟨⟨⟨w1, w2⟩, w3⟩, w4⟩, w5⟩, w6⟩ := hwt
  exact chatCore_obj fs hnoerr w1 w2 w3 w4 w5 w6 hr hs

/-- The double-priority provider object used by the C8 witness. -/
def c8Text : String :=
  "\x7b\"response\": \" \", \"reply\": \" hey \", \"suggestions\": [], \"follow_up\": [\"a\", \"\", \"b\"]\x7d"

/-- Witness for the amended C8: an empty `response` is skipped in favour of
`reply`, an empty `suggestions` array is skipped in favour of `follow_up`, and
blank entries are filtered out. -/
theorem c8_field_priority_witness :
    (MentorEngine.chat promptsC (fun _ => c8Text) [] [Msg.mk ("user") ("q")] "u" "t"
        none [] "easy" "default" none none none).1
      = Except.ok (Json.str ("hey"), ["a", "b"]) :=
  c8_field_priority_amended promptsC [] [Msg.mk ("user") ("q")] "u" "t"
    none [] "easy" "default" none none none c8Text
    [("response", Json.str (" ")), ("reply", Json.str (" hey ")),
     ("suggestions", Json.arr []), ("follow_up", Json.arr [Json.str ("a"), Json.str (""), Json.str ("b")])]
    (by simp) rfl rfl rfl (by decide) (by decide)
